import Mathlib

/-!
Shallow embedding of the IoT temperature-watch frontend
(`src/unnamed/part_000`, the latest-reading poller, and
`src/frontend/src/components/TemperatureChart.jsx`, the history poller),
together with theorems settling the frozen claims about it.

Numbers are modelled as `ℚ`.  JavaScript `Date` behaviour is modelled
explicitly: `new Date(s)` on a string never throws — an unparseable string
yields an *Invalid Date* object — and `Date.prototype.toLocaleTimeString`
on an Invalid Date returns the string `"Invalid Date"` (ECMA-402
`Date.prototype.toLocaleTimeString`: if the time value is NaN the result is
`"Invalid Date"`; no exception is raised).  A timestamp value is therefore
embedded as its raw string paired with the outcome of `new Date` on it,
expressed directly in the viewer's local clock.
-/

namespace IotWatch

/-- A viewer-local wall-clock reading (hour/minute), the information
`toLocaleTimeString('en-US', \x7b hour12: false, hour: '2-digit',
minute: '2-digit' \x7d)` displays. -/
structure LocalTime where
  hour : ℕ
  minute : ℕ
deriving DecidableEq, Repr

/-- A serialized timestamp: the raw string the remote source delivered,
paired with the result of `new Date(raw)` — `some t` when the string parses
(with `t` the viewer-local clock reading of the parsed instant), `none`
when `new Date` yields an Invalid Date. -/
structure TSVal where
  raw : String
  parsed : Option LocalTime
deriving DecidableEq, Repr

/-- Two-digit zero padding, as the `'2-digit'` option renders hour and
minute fields. -/
def pad2 (n : ℕ) : String :=
  if n < 10 then "0" ++ toString n else toString n

/-- Model of `date.toLocaleTimeString('en-US', \x7b hour12: false, hour: '2-digit',
minute: '2-digit' \x7d)`: a valid date renders as the local 24-hour
`hh:mm`; an Invalid Date renders as the string `"Invalid Date"` (it does
not throw). -/
def toLocale24 : Option LocalTime → String
  | some t => pad2 t.hour ++ ":" ++ pad2 t.minute
  | none => "Invalid Date"

/-- Function `formatTime` from `part_000` lines 5-17: a falsy `timeString` (null or
the empty string) short-circuits to `"--:--"`; otherwise `new Date` is
applied and `toLocaleTimeString` renders the result.  Neither call throws
for a string input, so the `catch` branch is unreachable here. -/
def formatTime : Option TSVal → String
  | none => "--:--"
  | some v => if v.raw = "" then "--:--" else toLocale24 v.parsed

/-- Function `formatTimestamp` from `TemperatureChart.jsx` lines 74-85: no falsy
guard; `new Date` plus `toLocaleTimeString`, with a `catch` returning the
raw timestamp.  As with `formatTime` the `catch` is unreachable for string
input, since neither call throws. -/
def formatTimestamp (v : TSVal) : String :=
  toLocale24 v.parsed

/-- What the big temperature `<span>` of `TemperatureCard` (part_000 lines
33-35) shows: `temperature !== null ? temperature : "--"` — the raw number,
or the placeholder; no numeric formatting is applied in either case. -/
inductive TempText where
  | placeholder
  | num (q : ℚ)
deriving DecidableEq, Repr

/-- Rendering `\x7btemperature !== null ? temperature : "--"\x7d`. -/
def displayTemp : Option ℚ → TempText
  | none => TempText.placeholder
  | some q => TempText.num q

/-- The directional trend indicator of `TemperatureCard` (part_000 lines
39-53): an arrow plus a word, direction only — the constructors carry no
numeric payload because the JSX renders none. -/
inductive TrendIndicator where
  | rising
  | falling
deriving DecidableEq, Repr

/-- Lines 39-52: `trend !== "stable" && (trend === "up" ? Rising : Falling)`
— no indicator for `"stable"`, the rising one for `"up"`, the falling one
for anything else. -/
def renderTrend (trend : String) : Option TrendIndicator :=
  if trend = "stable" then none
  else if trend = "up" then some TrendIndicator.rising
  else some TrendIndicator.falling

/-- The word next to the arrow (lines 44 and 49). -/
def indicatorLabel : TrendIndicator → String
  | TrendIndicator.rising => "Rising"
  | TrendIndicator.falling => "Falling"

/-- The colour class of arrow and word (lines 43-44 and 48-49): warming red
for rising, cooling blue for falling. -/
def indicatorColor : TrendIndicator → String
  | TrendIndicator.rising => "text-red-500"
  | TrendIndicator.falling => "text-blue-500"

/-- The data-bearing parts of the card markup. -/
structure CardView where
  timeText : String
  tempText : TempText
  trendInd : Option TrendIndicator
deriving DecidableEq, Repr

/-- Component `TemperatureCard` (part_000 lines 4-57) as a pure function from its
props to the displayed data. -/
def TemperatureCard (time : Option TSVal) (temperature : Option ℚ)
    (trend : String) : CardView :=
  { timeText := formatTime time
    tempText := displayTemp temperature
    trendInd := renderTrend trend }

/-! ## Latest-reading poller (`TemperatureDisplay`, part_000 lines 59-119) -/

/-- State slot `data` of `TemperatureDisplay` (lines 60-64). -/
structure LatestData where
  temperature : Option ℚ
  time : Option TSVal
  trend : String
deriving DecidableEq, Repr

/-- A parsed successful `/api/latest` JSON body: `temperature` (may be
null), `time`, `trend` (lines 75-81). -/
structure LatestResult where
  temperature : Option ℚ
  time : Option TSVal
  trend : String
deriving DecidableEq, Repr

/-- The component state of `TemperatureDisplay`: `data` plus `loading`. -/
structure DisplayState where
  data : LatestData
  loading : Bool
deriving DecidableEq, Repr

/-- Initial state (lines 60-65): null temperature and time, `"stable"`
trend, `loading = true`. -/
def initDisplay : DisplayState :=
  { data := { temperature := none, time := none, trend := "stable" }
    loading := true }

/-- How one call of `fetchTemperature` resolves: a success carrying the
parsed body, or a failure (network error or non-ok status). -/
inductive LatestOutcome where
  | success (r : LatestResult)
  | failure
deriving DecidableEq, Repr

/-- Function `fetchTemperature` (part_000 lines 67-89) as a state transformer on the
resolution of one fetch.  Success replaces `data` wholesale from the body;
failure logs and runs `setData(prev => (\x7b ...prev \x7d))`, a spread copy
that is semantically the identity on `data`.  The `finally` block sets
`loading` to false in both cases. -/
def fetchTemperature (s : DisplayState) : LatestOutcome → DisplayState
  | LatestOutcome.success r =>
      { data := { temperature := r.temperature, time := r.time,
                  trend := r.trend }
        loading := false }
  | LatestOutcome.failure =>
      { data := s.data, loading := false }

/-- What `TemperatureDisplay` renders (lines 102-118): a spinner while
loading, else the card.  There is no error branch in the source. -/
inductive LatestView where
  | spinner
  | card (c : CardView)
deriving DecidableEq, Repr

/-- The render of `TemperatureDisplay` (lines 102-118). -/
def TemperatureDisplay (s : DisplayState) : LatestView :=
  if s.loading then LatestView.spinner
  else LatestView.card
    (TemperatureCard s.data.time s.data.temperature s.data.trend)

/-- Running the latest-reading poller from mount through a sequence of
fetch resolutions. -/
def runDisplay (es : List LatestOutcome) : DisplayState :=
  es.foldl fetchTemperature initDisplay

/-! ## History poller (`TemperatureChart.jsx`) -/

/-- State slot `temperatureData` of `TemperatureChart` (lines 20-24). -/
structure HistData where
  timestamps : List TSVal
  temperatures : List ℚ
  count : ℕ
deriving DecidableEq, Repr

/-- A parsed successful `/api/history` JSON body; each field may be absent
(`result.lastTimestamps || []` etc. defaults it). -/
structure HistResult where
  lastTimestamps : Option (List TSVal)
  lastTemperatures : Option (List ℚ)
  count : Option ℕ
deriving DecidableEq, Repr

/-- The component state of `TemperatureChart`: `temperatureData`,
`loading`, `error` (lines 20-26). -/
structure ChartState where
  data : HistData
  loading : Bool
  error : Option String
deriving DecidableEq, Repr

/-- Initial state (lines 20-26): empty arrays, zero count,
`loading = true`, `error = null`. -/
def initChart : ChartState :=
  { data := { timestamps := [], temperatures := [], count := 0 }
    loading := true
    error := none }

/-- How one call of `fetchTemperatureHistory` resolves: success with the
parsed body, or failure carrying the error message (`err.message`). -/
inductive HistOutcome where
  | success (r : HistResult)
  | failure (msg : String)
deriving DecidableEq, Repr

/-- Function `fetchTemperatureHistory` (TemperatureChart.jsx lines 38-61) as a state
transformer on the resolution of one fetch.  Success replaces
`temperatureData` wholesale (missing arrays default to `[]`, missing count
to 0) and clears `error`; failure logs and sets `error` to the message.
The `finally` block sets `loading` to false in both cases. -/
def fetchTemperatureHistory (s : ChartState) : HistOutcome → ChartState
  | HistOutcome.success r =>
      { data := { timestamps := r.lastTimestamps.getD []
                  temperatures := r.lastTemperatures.getD []
                  count := r.count.getD 0 }
        loading := false
        error := none }
  | HistOutcome.failure msg =>
      { data := s.data, loading := false, error := some msg }

/-- The `Retry` button of the error view (line 225) has
`onClick=\x7bfetchTemperatureHistory\x7d`: a manual retry re-invokes the
very same fetch routine, so in the model it is the same transformer. -/
def retryFetch : ChartState → HistOutcome → ChartState :=
  fetchTemperatureHistory

/-- Running the history poller from mount through a sequence of fetch
resolutions (scheduled ticks and manual retries alike). -/
def runChart (es : List HistOutcome) : ChartState :=
  es.foldl fetchTemperatureHistory initChart

/-- Expression `temperatures.reduce((a, b) => a + b, 0)` (line 262). -/
def jsReduceSum (l : List ℚ) : ℚ :=
  l.foldl (· + ·) 0

/-- Model of `Math.max(...l)`: `none` models the `-Infinity` of an empty spread
(never reached — the stats block is guarded by `length > 0`). -/
def jsMathMax : List ℚ → Option ℚ
  | [] => none
  | h :: t => some (t.foldl max h)

/-- Model of `Math.min(...l)`: `none` models the `Infinity` of an empty spread. -/
def jsMathMin : List ℚ → Option ℚ
  | [] => none
  | h :: t => some (t.foldl min h)

/-- The statistics block (TemperatureChart.jsx lines 251-272), computed
fresh on every render: rendered only when
`temperatureData.temperatures.length > 0`, showing
`temperatures[temperatures.length - 1]` (Current),
`temperatures.reduce((a, b) => a + b, 0) / temperatures.length` (Average)
and `Math.max(...temperatures) - Math.min(...temperatures)` (Range), each
then formatted for display with `.toFixed(1)`.  The triple holds the exact
values the uniform one-decimal formatting is applied to. -/
def statsBlock (temps : List ℚ) : Option (ℚ × ℚ × ℚ) :=
  match temps with
  | [] => none
  | h :: t =>
      some ((h :: t).getLast (List.cons_ne_nil h t),
        jsReduceSum (h :: t) / (h :: t).length,
        (jsMathMax (h :: t)).getD 0 - (jsMathMin (h :: t)).getD 0)

/-- What `TemperatureChart` renders (lines 202-274): loading view, else
error view when the error flag is set, else the chart with labels, data,
count text and the optional stats block. -/
inductive ChartView where
  | loadingView
  | errorView (msg : String)
  | chartView (labels : List String) (temps : List ℚ) (count : ℕ)
      (stats : Option (ℚ × ℚ × ℚ))
deriving DecidableEq, Repr

/-- The render of `TemperatureChart` (lines 88-89, 202-274). -/
def TemperatureChart (s : ChartState) : ChartView :=
  if s.loading then ChartView.loadingView
  else
    match s.error with
    | some msg => ChartView.errorView msg
    | none => ChartView.chartView (s.data.timestamps.map formatTimestamp)
        s.data.temperatures s.data.count (statsBlock s.data.temperatures)

/-! ## Mount, schedule and teardown (part_000 lines 91-100,
TemperatureChart.jsx lines 63-71)

Both components use the same `useEffect` shape: an immediate fetch on
mount, `setInterval(fetch, 30000)`, and a cleanup that calls
`clearInterval(interval)`.  The world below makes the schedule, the
in-flight fetches and the mounted flag explicit so teardown behaviour can
be stated. -/

/-- The observable world of one poller instance: whether the instance is
still mounted, whether the 30-second interval is still scheduled, how many
fetches are in flight, and the component state. -/
structure PollerWorld (σ : Type) where
  mounted : Bool
  timerActive : Bool
  inflight : ℕ
  st : σ
deriving DecidableEq, Repr

/-- Mounting: the effect body runs — one immediate fetch is issued and the
repeating 30-second schedule is installed. -/
def mountPoller (s0 : σ) : PollerWorld σ :=
  { mounted := true, timerActive := true, inflight := 1, st := s0 }

/-- One interval tick: while the schedule is active the callback fires and
issues a fetch; after `clearInterval` the tick is a no-op — no scheduled
callback fires any more. -/
def tickPoller (w : PollerWorld σ) : PollerWorld σ :=
  if w.timerActive then { w with inflight := w.inflight + 1 } else w

/-- Unmounting: the `useEffect` cleanup runs `clearInterval(interval)`.
Nothing else happens — in-flight fetches are not aborted and no
mounted-flag is recorded anywhere in the component code. -/
def unmountPoller (w : PollerWorld σ) : PollerWorld σ :=
  { w with mounted := false, timerActive := false }

/-- Resolution of one in-flight fetch: the completion handler (the body of
`fetchTemperature` / `fetchTemperatureHistory`) runs its `setState` calls
unconditionally — the source contains no `isMounted` or similar guard, so
the handler applies the state update whether or not the instance is still
mounted. -/
def resolvePoller (step : σ → ε → σ) (w : PollerWorld σ) (e : ε) :
    PollerWorld σ :=
  if w.inflight = 0 then w
  else { w with inflight := w.inflight - 1, st := step w.st e }

/-! ## Helper lemmas -/

/-- Folding `+` from an accumulator is the accumulator plus the sum. -/
lemma foldl_add_eq (l : List ℚ) : ∀ a : ℚ, l.foldl (· + ·) a = a + l.sum := by
  induction l with
  | nil => intro a; simp
  | cons h t ih => intro a; simp [List.foldl_cons, ih, add_assoc]

/-- The spread-style maximum is an element of the spread list. -/
lemma foldl_max_mem (t : List ℚ) : ∀ h : ℚ, t.foldl max h ∈ h :: t := by
  induction t with
  | nil => intro h; simp
  | cons a t ih =>
      intro h
      simp only [List.foldl_cons]
      rcases max_choice h a with hc | hc <;> rw [hc]
      · rcases List.mem_cons.mp (ih h) with h1 | h1
        · simp [h1]
        · simp [List.mem_cons_of_mem, h1]
      · rcases List.mem_cons.mp (ih a) with h1 | h1
        · simp [h1]
        · simp [List.mem_cons_of_mem, h1]

/-- The spread-style maximum bounds every element of the spread list. -/
lemma le_foldl_max (t : List ℚ) : ∀ h : ℚ, ∀ x ∈ h :: t, x ≤ t.foldl max h := by
  induction t with
  | nil => intro h x hx; simp at hx; simp [hx]
  | cons a t ih =>
      intro h x hx
      simp only [List.foldl_cons]
      rcases List.mem_cons.mp hx with h1 | h1
      · subst h1
        exact le_trans (le_max_left x a) (ih _ _ (List.mem_cons_self _ _))
      · rcases List.mem_cons.mp h1 with h2 | h2
        · subst h2
          exact le_trans (le_max_right h x) (ih _ _ (List.mem_cons_self _ _))
        · exact ih _ _ (List.mem_cons_of_mem _ h2)

/-- The spread-style minimum is an element of the spread list. -/
lemma foldl_min_mem (t : List ℚ) : ∀ h : ℚ, t.foldl min h ∈ h :: t := by
  induction t with
  | nil => intro h; simp
  | cons a t ih =>
      intro h
      simp only [List.foldl_cons]
      rcases min_choice h a with hc | hc <;> rw [hc]
      · rcases List.mem_cons.mp (ih h) with h1 | h1
        · simp [h1]
        · simp [List.mem_cons_of_mem, h1]
      · rcases List.mem_cons.mp (ih a) with h1 | h1
        · simp [h1]
        · simp [List.mem_cons_of_mem, h1]

/-- The spread-style minimum is below every element of the spread list. -/
lemma foldl_min_le (t : List ℚ) : ∀ h : ℚ, ∀ x ∈ h :: t, t.foldl min h ≤ x := by
  induction t with
  | nil => intro h x hx; simp at hx; simp [hx]
  | cons a t ih =>
      intro h x hx
      simp only [List.foldl_cons]
      rcases List.mem_cons.mp hx with h1 | h1
      · subst h1
        exact le_trans (ih _ _ (List.mem_cons_self _ _)) (min_le_left x a)
      · rcases List.mem_cons.mp h1 with h2 | h2
        · subst h2
          exact le_trans (ih _ _ (List.mem_cons_self _ _)) (min_le_right h x)
        · exact ih _ _ (List.mem_cons_of_mem _ h2)

/-- On a nonempty list the last element exists and `getLast?` returns it. -/
lemma getLast_eq_getLast? (h : ℚ) (t : List ℚ) :
    (h :: t).getLast? = some ((h :: t).getLast (List.cons_ne_nil h t)) := by
  simp [List.getLast?_eq_getLast]

/-! ## Claims -/

/-- C1: for every fetched temperatures sequence, if nonempty the rendered
statistics are current = the value at the last index, average = sum of all
values over the length, range = max minus min (each then shown to one
decimal place by the uniform `.toFixed(1)` display formatting), so
`[18, 20, 22]` yields `(22, 20, 4)` and `[19.5]` yields `(19.5, 19.5, 0)`;
if empty, no statistics block is rendered at all. -/
theorem C1_stats_derivation :
    statsBlock [] = none ∧
    statsBlock [(18 : ℚ), 20, 22] = some (22, 20, 4) ∧
    statsBlock [(19.5 : ℚ)] = some (19.5, 19.5, 0) ∧
    ∀ l : List ℚ, l ≠ [] →
      ∃ c mx mn : ℚ, l.getLast? = some c ∧ mx ∈ l ∧ mn ∈ l ∧
        (∀ x ∈ l, x ≤ mx) ∧ (∀ x ∈ l, mn ≤ x) ∧
        statsBlock l = some (c, l.sum / l.length, mx - mn) := by
  refine ⟨rfl, ?_, ?_, ?_⟩
  · simp [statsBlock, jsReduceSum, jsMathMax, jsMathMin, List.getLast]
    norm_num [max_def, min_def]
  · simp [statsBlock, jsReduceSum, jsMathMax, jsMathMin, List.getLast]
  · rintro (_ | ⟨h, t⟩) hne
    · exact absurd rfl hne
    · refine ⟨(h :: t).getLast (List.cons_ne_nil h t), t.foldl max h,
        t.foldl min h, getLast_eq_getLast? h t, foldl_max_mem t h,
        foldl_min_mem t h, le_foldl_max t h, foldl_min_le t h, ?_⟩
      simp [statsBlock, jsReduceSum, jsMathMax, jsMathMin, foldl_add_eq]

/-- Witness for C1 at the concrete window `[5, 7]`. -/
theorem C1_stats_derivation_witness :
    ∃ c mx mn : ℚ, ([(5 : ℚ), 7]).getLast? = some c ∧ mx ∈ [(5 : ℚ), 7] ∧
      mn ∈ [(5 : ℚ), 7] ∧ (∀ x ∈ [(5 : ℚ), 7], x ≤ mx) ∧
      (∀ x ∈ [(5 : ℚ), 7], mn ≤ x) ∧
      statsBlock [(5 : ℚ), 7] =
        some (c, ([(5 : ℚ), 7]).sum / ([(5 : ℚ), 7]).length, mx - mn) :=
  C1_stats_derivation.2.2.2 [5, 7] (by simp)

/-- C2: for the latest-reading poller, a failed fetch following a prior
successful fetch leaves the stored temperature, time and trend semantically
unchanged and renders the same card; the poller's render is exhaustively a
spinner or the card — it has no error view at all. -/
theorem C2_latest_failure_keeps_data :
    ∀ (s : DisplayState) (r : LatestResult),
      (fetchTemperature (fetchTemperature s (LatestOutcome.success r))
          LatestOutcome.failure).data =
        (fetchTemperature s (LatestOutcome.success r)).data ∧
      TemperatureDisplay (fetchTemperature
          (fetchTemperature s (LatestOutcome.success r))
          LatestOutcome.failure) =
        TemperatureDisplay (fetchTemperature s (LatestOutcome.success r)) ∧
      ∀ st : DisplayState, TemperatureDisplay st = LatestView.spinner ∨
        TemperatureDisplay st = LatestView.card
          (TemperatureCard st.data.time st.data.temperature st.data.trend) := by
  intro s r
  refine ⟨rfl, rfl, ?_⟩
  intro st
  by_cases h : st.loading <;> simp [TemperatureDisplay, h]

/-- C3: for the history poller, a failure after a prior success sets the
error flag with the message and renders the error view while keeping the
stored data; a subsequent success — via the retry action, which is the very
same fetch routine — replaces the state wholesale with the new window,
clears the error flag, and renders the chart view of the new window. -/
theorem C3_history_error_then_recovery :
    ∀ (s : ChartState) (r : HistResult) (m : String) (rNew : HistResult),
      (fetchTemperatureHistory
          (fetchTemperatureHistory s (HistOutcome.success r))
          (HistOutcome.failure m)).error = some m ∧
      (fetchTemperatureHistory
          (fetchTemperatureHistory s (HistOutcome.success r))
          (HistOutcome.failure m)).data =
        (fetchTemperatureHistory s (HistOutcome.success r)).data ∧
      TemperatureChart (fetchTemperatureHistory
          (fetchTemperatureHistory s (HistOutcome.success r))
          (HistOutcome.failure m)) = ChartView.errorView m ∧
      retryFetch = fetchTemperatureHistory ∧
      (retryFetch (fetchTemperatureHistory
          (fetchTemperatureHistory s (HistOutcome.success r))
          (HistOutcome.failure m)) (HistOutcome.success rNew)).error = none ∧
      (retryFetch (fetchTemperatureHistory
          (fetchTemperatureHistory s (HistOutcome.success r))
          (HistOutcome.failure m)) (HistOutcome.success rNew)).data =
        { timestamps := rNew.lastTimestamps.getD []
          temperatures := rNew.lastTemperatures.getD []
          count := rNew.count.getD 0 } ∧
      TemperatureChart (retryFetch (fetchTemperatureHistory
          (fetchTemperatureHistory s (HistOutcome.success r))
          (HistOutcome.failure m)) (HistOutcome.success rNew)) =
        ChartView.chartView
          ((rNew.lastTimestamps.getD []).map formatTimestamp)
          (rNew.lastTemperatures.getD []) (rNew.count.getD 0)
          (statsBlock (rNew.lastTemperatures.getD [])) := by
  intro s r m rNew
  exact ⟨rfl, rfl, rfl, rfl, rfl, rfl, rfl⟩

/-- C4: a reading with an absent value renders the fixed placeholder
instead of a number: the card's temperature text is the placeholder, which
is not the numeric rendering of any value, so the absent value feeds no
numeric formatting; the aggregations (`statsBlock`) consume only sequences
of present numeric values. -/
theorem C4_absent_value_display :
    displayTemp none = TempText.placeholder ∧
    (∀ q : ℚ, displayTemp none ≠ TempText.num q) ∧
    ∀ (t : Option TSVal) (tr : String),
      (TemperatureCard t none tr).tempText = TempText.placeholder := by
  exact ⟨rfl, fun q => by simp [displayTemp], fun t tr => rfl⟩

/-- C5: for each poller the loading flag is true in the mount state, every
fetch resolution (success or failure) leaves it false, and after any
nonempty sequence of resolutions it is false. -/
theorem C5_loading_resolves_once :
    initDisplay.loading = true ∧ initChart.loading = true ∧
    (∀ (s : DisplayState) (e : LatestOutcome),
      (fetchTemperature s e).loading = false) ∧
    (∀ (s : ChartState) (e : HistOutcome),
      (fetchTemperatureHistory s e).loading = false) ∧
    (∀ (es : List LatestOutcome) (e : LatestOutcome),
      (runDisplay (es ++ [e])).loading = false) ∧
    (∀ (es : List HistOutcome) (e : HistOutcome),
      (runChart (es ++ [e])).loading = false) := by
  refine ⟨rfl, rfl, ?_, ?_, ?_, ?_⟩
  · intro s e; cases e <;> rfl
  · intro s e; cases e <;> rfl
  · intro es e
    simp only [runDisplay, List.foldl_append, List.foldl_cons, List.foldl_nil]
    cases e <;> rfl
  · intro es e
    simp only [runChart, List.foldl_append, List.foldl_cons, List.foldl_nil]
    cases e <;> rfl

/-- C6 exhibit: unmount does cancel the schedule (a tick after teardown is
a no-op), but the resolution of a fetch that was in flight at teardown is
not guarded — for both pollers it still mutates the state of the unmounted
instance, because the completion handlers run their state updates
unconditionally. -/
theorem C6_unguarded_inflight_resolution :
    tickPoller (unmountPoller (mountPoller initDisplay)) =
      unmountPoller (mountPoller initDisplay) ∧
    (unmountPoller (mountPoller initDisplay)).mounted = false ∧
    (resolvePoller fetchTemperature (unmountPoller (mountPoller initDisplay))
        LatestOutcome.failure).st ≠
      (unmountPoller (mountPoller initDisplay)).st ∧
    (unmountPoller (mountPoller initChart)).mounted = false ∧
    (resolvePoller fetchTemperatureHistory
        (unmountPoller (mountPoller initChart))
        (HistOutcome.failure "HTTP error! status: 500")).st ≠
      (unmountPoller (mountPoller initChart)).st := by
  refine ⟨rfl, rfl, ?_, rfl, ?_⟩ <;>
    simp [resolvePoller, mountPoller, unmountPoller, tickPoller,
      fetchTemperature, fetchTemperatureHistory, initDisplay, initChart]

/-- C7 counterexample: an unparseable non-empty timestamp does not render
the placeholder — `new Date` yields an Invalid Date without throwing, and
`toLocaleTimeString` renders it as the string `"Invalid Date"`, so the
`catch` fallback to the placeholder never fires. -/
theorem C7_unparseable_renders_invalid_date :
    formatTime (some ⟨"not-a-date", none⟩) = "Invalid Date" ∧
    formatTime (some ⟨"not-a-date", none⟩) ≠ "--:--" := by
  exact ⟨rfl, by decide⟩

/-- C7 amended: an absent (null or empty) timestamp renders the fixed
placeholder; a parseable timestamp is formatted in the viewer's local
24-hour clock; an unparseable non-empty timestamp renders the string
`"Invalid Date"`, not the placeholder. -/
theorem C7_time_placeholder_amended :
    formatTime none = "--:--" ∧
    (∀ p : Option LocalTime, formatTime (some ⟨"", p⟩) = "--:--") ∧
    (∀ (raw : String) (t : LocalTime), raw ≠ "" →
      formatTime (some ⟨raw, some t⟩) = pad2 t.hour ++ ":" ++ pad2 t.minute) ∧
    (∀ raw : String, raw ≠ "" →
      formatTime (some ⟨raw, none⟩) = "Invalid Date") := by
  refine ⟨rfl, fun p => rfl, fun raw t h => ?_, fun raw h => ?_⟩ <;>
    simp [formatTime, toLocale24, h]

/-- Witness for the amended C7 at a concrete parseable and a concrete
unparseable timestamp. -/
theorem C7_time_placeholder_amended_witness :
    formatTime (some ⟨"2024-01-01T10:05:00Z", some ⟨10, 5⟩⟩) =
        pad2 10 ++ ":" ++ pad2 5 ∧
    formatTime (some ⟨"zzz", none⟩) = "Invalid Date" :=
  ⟨C7_time_placeholder_amended.2.2.1 "2024-01-01T10:05:00Z" ⟨10, 5⟩
      (by decide),
   C7_time_placeholder_amended.2.2.2 "zzz" (by decide)⟩

/-- C8 counterexample: an unparseable timestamp in the chart labels does
not fall back to the raw value — as in C7, `new Date` does not throw, so
the `catch` returning the raw timestamp never fires and the label is the
string `"Invalid Date"`. -/
theorem C8_unparseable_label_not_raw :
    formatTimestamp ⟨"garbage", none⟩ = "Invalid Date" ∧
    formatTimestamp ⟨"garbage", none⟩ ≠ "garbage" := by
  exact ⟨rfl, by decide⟩

/-- C8 amended: chart labels format parseable timestamps exactly as the
latest-reading poller does (local 24-hour hour:minute); unparseable
timestamps render the string `"Invalid Date"`, not the raw value. -/
theorem C8_label_formatting_amended :
    (∀ (raw : String) (t : LocalTime),
      formatTimestamp ⟨raw, some t⟩ = pad2 t.hour ++ ":" ++ pad2 t.minute) ∧
    (∀ (raw : String) (t : LocalTime), raw ≠ "" →
      formatTimestamp ⟨raw, some t⟩ = formatTime (some ⟨raw, some t⟩)) ∧
    ∀ raw : String, formatTimestamp ⟨raw, none⟩ = "Invalid Date" := by
  refine ⟨fun raw t => rfl, fun raw t h => ?_, fun raw => rfl⟩
  simp [formatTimestamp, formatTime, toLocale24, h]

/-- Witness for the amended C8: at a concrete parseable timestamp the chart
label equals the latest-reading poller's formatting of it. -/
theorem C8_label_formatting_amended_witness :
    formatTimestamp ⟨"2024-01-01T10:05:00Z", some ⟨10, 5⟩⟩ =
      formatTime (some ⟨"2024-01-01T10:05:00Z", some ⟨10, 5⟩⟩) :=
  C8_label_formatting_amended.2.1 "2024-01-01T10:05:00Z" ⟨10, 5⟩ (by decide)

/-- C9: trend `"stable"` renders no directional indicator for any
temperature value; `"up"` renders the rising indicator with the warming
colour and the word Rising; `"down"` renders the falling indicator with the
cooling colour and the word Falling; the indicator type carries direction
only, no numeric delta. -/
theorem C9_trend_indicator_rendering :
    renderTrend "stable" = none ∧
    (∀ (t : Option TSVal) (q : Option ℚ),
      (TemperatureCard t q "stable").trendInd = none) ∧
    renderTrend "up" = some TrendIndicator.rising ∧
    indicatorLabel TrendIndicator.rising = "Rising" ∧
    indicatorColor TrendIndicator.rising = "text-red-500" ∧
    renderTrend "down" = some TrendIndicator.falling ∧
    indicatorLabel TrendIndicator.falling = "Falling" ∧
    indicatorColor TrendIndicator.falling = "text-blue-500" := by
  refine ⟨?_, fun t q => ?_, ?_, rfl, rfl, ?_, rfl, rfl⟩ <;>
    simp [renderTrend, TemperatureCard]

/-- C10: every trend string that is neither `"up"` nor `"stable"` —
`"down"` or any unexpected tag — renders the falling indicator; the
rendering does not distinguish `"down"` from arbitrary non-up values. -/
theorem C10_non_up_non_stable_falls :
    ∀ s : String, s ≠ "up" → s ≠ "stable" →
      renderTrend s = some TrendIndicator.falling := by
  intro s hup hstable
  simp [renderTrend, hup, hstable]

/-- Witness for C10 at a tag outside the three-valued domain. -/
theorem C10_non_up_non_stable_falls_witness :
    renderTrend "weird" = some TrendIndicator.falling :=
  C10_non_up_non_stable_falls "weird" (by decide) (by decide)

end IotWatch
